import Mathlib

/-!
Verification of the openfortivpn-gui core against its specification.

The Go sources are shallowly embedded: pure functions become Lean functions,
stateful code becomes explicit state passing, strings are Lean `String`s
(or `List Char` where character-level reasoning is needed), Go `int` becomes
`Int`, and fallible code returns `Except String`.  Interactions with the
operating system (process spawning, signals, the filesystem) are modelled by
explicit outcome parameters so that every code path of the embedded function
is represented.
-/

namespace OfvGui

/-! ## Generic helpers -/

/-- `exceptIsErr e` is `true` iff `e` is an `Except.error`. -/
def exceptIsErr {ε α : Type} : Except ε α → Bool
  | Except.error _ => true
  | Except.ok _ => false

deriving instance DecidableEq for Except

/-- `listStartsWith pat s` is `true` iff `pat` is an initial segment of `s`
(the model of Go `strings.HasPrefix` on rune lists). -/
def listStartsWith : List Char → List Char → Bool
  | [], _ => true
  | _ :: _, [] => false
  | p :: ps, c :: cs => p == c && listStartsWith ps cs

/-- `containsSub pat s` is `true` iff `pat` occurs as a contiguous substring
of `s` (the model of Go `strings.Contains` on rune lists). -/
def containsSub (pat : List Char) : List Char → Bool
  | [] => listStartsWith pat []
  | c :: t => listStartsWith pat (c :: t) || containsSub pat t

/-! ## `internal/vpn/state.go` -/

/-- `ConnectionState` from `internal/vpn/state.go`.  The Go type is a string
with six declared constants forming a closed set of tags (§3 of the spec);
we embed it as the corresponding inductive. -/
inductive ConnectionState where
  | disconnected
  | authenticating
  | connecting
  | connected
  | reconnecting
  | failed
deriving DecidableEq, Fintype, Repr

/-- The Go string value of each state constant. -/
def stateStr : ConnectionState → String
  | .disconnected => "disconnected"
  | .authenticating => "authenticating"
  | .connecting => "connecting"
  | .connected => "connected"
  | .reconnecting => "reconnecting"
  | .failed => "failed"

/-- `ConnectionState.IsConnected` from `state.go`. -/
def IsConnected (s : ConnectionState) : Bool :=
  s == .connected

/-- `ConnectionState.IsTransitioning` from `state.go`. -/
def IsTransitioning (s : ConnectionState) : Bool :=
  s == .authenticating || s == .connecting || s == .reconnecting

/-- `ConnectionState.CanConnect` from `state.go`. -/
def CanConnect (s : ConnectionState) : Bool :=
  s == .disconnected || s == .failed

/-- `ConnectionState.CanDisconnect` from `state.go`. -/
def CanDisconnect (s : ConnectionState) : Bool :=
  s == .authenticating || s == .connecting || s == .connected || s == .reconnecting

/-- The `validTransitions` map from `state.go`: for each state, the list of
states it may legally transition to.  A Go map from state to slice; since the
state set is closed, a total function on the inductive is the faithful
embedding (lookup of a key absent from the Go map yields `ok == false` in
`IsValidTransition`, which cannot happen for the six declared states). -/
def validTransitions : ConnectionState → List ConnectionState
  | .disconnected => [.authenticating, .connecting]
  | .authenticating => [.connecting, .connected, .disconnected, .failed]
  | .connecting => [.authenticating, .connected, .disconnected, .failed]
  | .connected => [.disconnected, .reconnecting]
  | .reconnecting => [.connecting, .disconnected, .failed]
  | .failed => [.disconnected, .authenticating, .connecting]

/-- `IsValidTransition` from `state.go`: membership of `to` in the
`validTransitions` slice of `from`. -/
def IsValidTransition (f t : ConnectionState) : Bool :=
  (validTransitions f).contains t

/-- The legal-transition table as written in §3 of the spec, one pair per
listed arrow.  This definition follows the spec's words, to be compared
against `IsValidTransition` (which is translated from the code). -/
def specLegalTransitions : List (ConnectionState × ConnectionState) :=
  [(.disconnected, .authenticating), (.disconnected, .connecting),
   (.authenticating, .connecting), (.authenticating, .connected),
   (.authenticating, .disconnected), (.authenticating, .failed),
   (.connecting, .authenticating), (.connecting, .connected),
   (.connecting, .disconnected), (.connecting, .failed),
   (.connected, .disconnected), (.connected, .reconnecting),
   (.reconnecting, .connecting), (.reconnecting, .disconnected),
   (.reconnecting, .failed),
   (.failed, .disconnected), (.failed, .authenticating), (.failed, .connecting)]

/-! ## `Controller.setState` from `internal/vpn/controller.go` -/

/-- The state-machine-relevant mutable state of a `Controller`
(`controller.go`): the `state` field guarded by `c.mu`.  Callbacks, the
process handle and the assigned IP are modelled separately where a claim
needs them. -/
structure ControllerState where
  state : ConnectionState
deriving DecidableEq, Repr

/-- `Controller.setState` from `controller.go`: commit the transition when
`IsValidTransition` allows it, otherwise return an error and leave the state
unchanged.  The returned pair is (call result, post state). -/
def setState (c : ControllerState) (newState : ConnectionState) :
    Except String Unit × ControllerState :=
  if IsValidTransition c.state newState then
    (Except.ok (), { c with state := newState })
  else
    (Except.error ("invalid state transition from " ++ stateStr c.state ++
      " to " ++ stateStr newState), c)

/-! ## `directProcess.Kill` (elevated executor, `internal/vpn`) -/

/-- Outcome of a `syscall.Kill` call: success, `ESRCH` ("no such process"),
or another error. -/
inductive SigResult where
  | ok
  | esrch
  | err (msg : String)
deriving DecidableEq, Repr

/-- `directProcess.Kill` from the elevated (direct) executor.  The process
handle (`p.cmd.Process`) may be absent (`hasProcess = false`); `term` and
`kill` are the outcomes of `syscall.Kill(-pgid, SIGTERM)` and
`syscall.Kill(-pgid, SIGKILL)` respectively.  SIGKILL is attempted only when
SIGTERM failed with an error other than `ESRCH`. -/
def directKill (hasProcess : Bool) (term kill : SigResult) : Except String Unit :=
  if !hasProcess then Except.ok ()
  else
    match term with
    | .ok => Except.ok ()
    | .esrch => Except.ok ()
    | .err _ =>
      match kill with
      | .ok => Except.ok ()
      | .esrch => Except.ok ()
      | .err m => Except.error ("failed to kill process group: " ++ m)

/-! ## The request multiplexer's line-size limit (§4.4, §8 of the spec)

The size-limited `handleClient` of the helper server (the code using the
`maxMessageSize` constant) is not present under `src/`: only its test
(`TestServerMaxMessageSize`, which references `maxMessageSize`) and a stale
pre-limit variant of `handleClient` are.  The limit is therefore modelled
from the spec. -/

/-- Modelled from the spec: the maximum length of one incoming line,
65,536 bytes including the newline delimiter (§4.4 "Limits", §6 "Socket
layout").  The missing code is the `maxMessageSize` constant of
`internal/helper/server`. -/
def maxMessageSize : Nat := 65536

/-- What the server does with one incoming line. -/
inductive LineDisposition where
  | rejected (errorCode : String) (connectionDropped : Bool)
  | accepted
deriving DecidableEq, Repr

/-- Modelled from the spec: the per-line size check of the helper server's
client loop ("Reject any incoming line longer than 65,536 bytes with an
`INVALID_REQUEST` error (and drop the connection)").  The line is given as
its byte sequence, newline delimiter included.  The missing code is the
size-limited `Server.handleClient` of `internal/helper/server`. -/
def handleIncomingLine (line : List Char) : LineDisposition :=
  if line.length > maxMessageSize then
    LineDisposition.rejected "INVALID_REQUEST" true
  else
    LineDisposition.accepted

/-! ## Character and string helpers for `internal/profile` -/

/-- ASCII decimal digit. -/
def isDigit (c : Char) : Bool :=
  48 ≤ c.toNat && c.toNat ≤ 57

/-- ASCII lowercase letter. -/
def isLowerAscii (c : Char) : Bool :=
  97 ≤ c.toNat && c.toNat ≤ 122

/-- ASCII uppercase letter. -/
def isUpperAscii (c : Char) : Bool :=
  65 ≤ c.toNat && c.toNat ≤ 90

/-- Hex digit, as accepted by `xtob` in google/uuid and by `netip`. -/
def isHexDigit (c : Char) : Bool :=
  isDigit c || (97 ≤ c.toNat && c.toNat ≤ 102) || (65 ≤ c.toNat && c.toNat ≤ 70)

/-- ASCII lowercasing of one character (uppercase letters map down, all
other characters are unchanged). -/
def asciiLower (c : Char) : Char :=
  if 65 ≤ c.toNat && c.toNat ≤ 90 then Char.ofNat (c.toNat + 32) else c

/-- Go `unicode.IsSpace` (White_Space property), as used by
`strings.TrimSpace`. -/
def unicodeIsSpace (c : Char) : Bool :=
  let n := c.toNat
  n == 9 || n == 10 || n == 11 || n == 12 || n == 13 || n == 32 ||
  n == 0x85 || n == 0xA0 || n == 0x1680 || (0x2000 ≤ n && n ≤ 0x200A) ||
  n == 0x2028 || n == 0x2029 || n == 0x202F || n == 0x205F || n == 0x3000

/-- Go `strings.TrimSpace` on a rune list. -/
def goTrimSpace (l : List Char) : List Char :=
  ((l.dropWhile unicodeIsSpace).reverse.dropWhile unicodeIsSpace).reverse

/-- Go `strings.TrimSpace` on a string. -/
def goTrimSpaceStr (s : String) : String :=
  String.mk (goTrimSpace s.data)

/-- UTF-8 byte length of a rune list (Go `len` of the corresponding
string). -/
def utf8Len (l : List Char) : Nat :=
  (l.map Char.utf8Size).sum

/-- Go `strings.Split` on a single separator character. -/
def splitOnChar (sep : Char) : List Char → List (List Char)
  | [] => [[]]
  | c :: t =>
    match splitOnChar sep t with
    | [] => [[]]
    | h :: r => if c == sep then [] :: h :: r else (c :: h) :: r

/-! ## Model of `uuid.Parse` (google/uuid)

`Profile.Validate` calls `uuid.Parse(p.ID)` and only uses whether it
errors.  `uuidParseOk` models that success predicate: the four accepted
layouts are the 36-byte canonical form, the 45-byte `urn:uuid:` form
(prefix compared case-insensitively), the 38-byte braced form (google/uuid
strips only the first byte and never examines the last, a quirk kept here),
and the 32-byte bare-hex form.  Byte positions are modelled as rune
positions; the accepted strings are pure ASCII, where the two coincide, and
on non-ASCII input both the Go code and this model reject. -/

/-- Canonical 36-byte UUID layout: hyphens at positions 8, 13, 18, 23 and
hex digits everywhere else. -/
def uuidCanonicalChars (cs : List Char) : Bool :=
  (List.range 36).all (fun i =>
    if [8, 13, 18, 23].contains i then cs.getD i ' ' == '-'
    else isHexDigit (cs.getD i ' '))

/-- Success predicate of `uuid.Parse`. -/
def uuidParseOk (s : String) : Bool :=
  let cs := s.data
  if cs.length == 36 then uuidCanonicalChars cs
  else if cs.length == 45 then
    listStartsWith "urn:uuid:".data (cs.map asciiLower) &&
      uuidCanonicalChars (cs.drop 9)
  else if cs.length == 38 then uuidCanonicalChars (cs.drop 1)
  else if cs.length == 32 then cs.all isHexDigit
  else false

/-! ## Model of `net.ParseIP` (Go standard library)

`validateHost` calls `net.ParseIP(host)` and only uses whether it returns
non-nil.  `parseIPOk` models that: `netip.ParseAddr` dispatches on the first
`.` / `:` / `%` byte, parses strict dotted-decimal IPv4 (fields 0–255, no
leading zeros) or RFC-4291 IPv6 (1–4 hex digit groups, at most one `::`,
optional embedded IPv4 in the last 32 bits), and `net.ParseIP` additionally
rejects zoned (`%`) addresses. -/

/-- Numeric value of a decimal-digit rune list. -/
def decimalVal : List Char → Nat
  | [] => 0
  | c :: t => (c.toNat - 48) * 10 ^ t.length + decimalVal t

/-- One IPv4 dotted-decimal field: nonempty digits, no leading zero,
value at most 255. -/
def ipv4FieldOk (f : List Char) : Bool :=
  !f.isEmpty && f.all isDigit &&
  (f.length == 1 || f.getD 0 ' ' != '0') &&
  decimalVal f ≤ 255

/-- `netip.parseIPv4` success predicate: exactly four valid fields. -/
def parseIPv4Ok (cs : List Char) : Bool :=
  let fs := splitOnChar '.' cs
  fs.length == 4 && fs.all ipv4FieldOk

/-- Post-loop validity check of `netip.parseIPv6`: a short address needs a
`::`, a full 16-byte address must not have one (`::` must expand to at
least one zero group). -/
def v6Finish (i : Nat) (ell : Bool) : Bool :=
  if i < 16 then ell else !ell

/-- The field loop of `netip.parseIPv6`.  `s` is the remaining input, `i`
the number of address bytes already produced, `ell` whether a `::` has been
seen.  The fuel is only a termination bound: each pass consumes one hex
group and adds two bytes, so ten passes are never reached. -/
def v6Loop : Nat → List Char → Nat → Bool → Bool
  | 0, _, _, _ => false
  | fuel + 1, s, i, ell =>
    if 16 ≤ i then s.isEmpty && v6Finish i ell
    else
      let hex := s.takeWhile isHexDigit
      let rest := s.dropWhile isHexDigit
      if hex.length == 0 then false
      else if 4 < hex.length then false
      else
        match rest with
        | [] => v6Finish (i + 2) ell
        | r :: rt =>
          if r == '.' then
            (ell || i == 12) && i + 4 ≤ 16 && parseIPv4Ok s && v6Finish (i + 4) ell
          else if r == ':' then
            match rt with
            | [] => false
            | r2 :: rt2 =>
              if r2 == ':' then
                if ell then false
                else
                  match rt2 with
                  | [] => v6Finish (i + 2) true
                  | _ :: _ => v6Loop fuel rt2 (i + 2) true
              else v6Loop fuel (r2 :: rt2) (i + 2) ell
          else false

/-- `netip.parseIPv6` success predicate, with zoned addresses rejected (as
`net.ParseIP` does). -/
def parseIPv6Ok (cs : List Char) : Bool :=
  if cs.contains '%' then false
  else
    match cs with
    | ':' :: ':' :: rest =>
      match rest with
      | [] => true
      | _ :: _ => v6Loop 10 rest 0 true
    | _ => v6Loop 10 cs 0 false

/-- The dispatch scan of `netip.ParseAddr`: the first `.`, `:` or `%`
decides the address family (`%` before either is an immediate error). -/
def parseIPScan (full : List Char) : List Char → Bool
  | [] => false
  | c :: t =>
    if c == '.' then parseIPv4Ok full
    else if c == ':' then parseIPv6Ok full
    else if c == '%' then false
    else parseIPScan full t

/-- Success predicate of `net.ParseIP`. -/
def parseIPOk (s : String) : Bool :=
  parseIPScan s.data s.data

/-! ## `internal/profile/profile.go` -/

/-- `AuthMethodPassword` from `profile.go`.  Go's `AuthMethod` is a string
type and the manager casts arbitrary client-supplied strings into it, so it
is embedded as `String`. -/
def authMethodPassword : String := "password"

/-- `AuthMethodOTP` from `profile.go`. -/
def authMethodOTP : String := "otp"

/-- `AuthMethodCertificate` from `profile.go`. -/
def authMethodCertificate : String := "certificate"

/-- `AuthMethodSAML` from `profile.go`. -/
def authMethodSAML : String := "saml"

/-- `maxNameLength` from `profile.go`. -/
def maxNameLength : Nat := 100

/-- `maxDescriptionLength` from `profile.go`. -/
def maxDescriptionLength : Nat := 500

/-- `Profile` from `profile.go`. -/
structure Profile where
  id : String
  name : String
  description : String
  host : String
  port : Int
  authMethod : String
  username : String
  realm : String
  trustedCert : String
  clientCertPath : String
  clientKeyPath : String
  setDNS : Bool
  setRoutes : Bool
  halfInternetRoutes : Bool
  autoReconnect : Bool
deriving DecidableEq, Repr

/-- The control-character scan shared by `validateTextInput` and
`validateHost` (ASCII 0–31 and 127). -/
def hasCtlChar (value : String) : Bool :=
  value.data.any (fun r => r.toNat < 32 || r.toNat == 127)

/-- `validateTextInput` from `profile.go`.  The Go error message includes
the offending rune position; the message is modelled without it (no claim
depends on message text). -/
def validateTextInput (value fieldName : String) (maxLength : Nat) :
    Except String Unit :=
  if maxLength < value.utf8ByteSize then
    Except.error (fieldName ++ " is too long (max " ++ toString maxLength ++
      " characters)")
  else if hasCtlChar value then
    Except.error (fieldName ++ " contains invalid control character")
  else Except.ok ()

/-- The `dangerousChars` list of `validateHost` (shell metacharacters and
whitespace); each Go entry is a one-byte string, embedded as the
character. -/
def dangerousChars : List Char :=
  [';', '|', '&', '$', Char.ofNat 96, '(', ')', Char.ofNat 123,
   Char.ofNat 125, Char.ofNat 91, Char.ofNat 93, '<', '>', Char.ofNat 92,
   Char.ofNat 39, Char.ofNat 34, Char.ofNat 10, Char.ofNat 13, Char.ofNat 9,
   ' ']

/-- The per-label hostname checks of `validateHost`. -/
def validateLabel (label : List Char) : Except String Unit :=
  if label.isEmpty then
    Except.error "invalid host: empty label in hostname"
  else if 63 < utf8Len label then
    Except.error "invalid host: label too long (max 63 characters)"
  else if listStartsWith ['-'] label || listStartsWith ['-'] label.reverse then
    Except.error "invalid host: label cannot start or end with hyphen"
  else if label.any (fun r =>
      !(isLowerAscii r || isUpperAscii r || isDigit r || r == '-')) then
    Except.error "invalid host: invalid character in hostname"
  else Except.ok ()

/-- The label loop of `validateHost`, stopping at the first failing
label. -/
def validateLabels : List (List Char) → Except String Unit
  | [] => Except.ok ()
  | l :: t =>
    match validateLabel l with
    | Except.error e => Except.error e
    | Except.ok () => validateLabels t

/-- `validateHost` from `profile.go`. -/
def validateHost (host : String) : Except String Unit :=
  if host == "" then Except.error "host is required"
  else if hasCtlChar host then
    Except.error "invalid host: contains control characters"
  else if dangerousChars.any (fun c => host.data.contains c) then
    Except.error "invalid host: contains forbidden character"
  else if parseIPOk host then Except.ok ()
  else if 253 < host.utf8ByteSize then
    Except.error "invalid host: hostname too long (max 253 characters)"
  else if listStartsWith ['-'] host.data ||
      listStartsWith ['-'] host.data.reverse then
    Except.error "invalid host: hostname cannot start or end with hyphen"
  else if listStartsWith ['.'] host.data ||
      listStartsWith ['.'] host.data.reverse then
    Except.error "invalid host: hostname cannot start or end with dot"
  else validateLabels (splitOnChar '.' host.data)

/-- `Profile.Validate` from `profile.go`. -/
def Validate (p : Profile) : Except String Unit :=
  if p.id == "" then Except.error "profile ID is required"
  else if !uuidParseOk p.id then Except.error "invalid profile ID format"
  else if goTrimSpaceStr p.name == "" then
    Except.error "profile name is required"
  else
    match validateTextInput p.name "name" maxNameLength with
    | Except.error e => Except.error e
    | Except.ok () =>
      match (if p.description != "" then
              validateTextInput p.description "description" maxDescriptionLength
            else Except.ok ()) with
      | Except.error e => Except.error e
      | Except.ok () =>
        if goTrimSpaceStr p.host == "" then Except.error "host is required"
        else
          match validateHost p.host with
          | Except.error e => Except.error e
          | Except.ok () =>
            if p.port < 1 || 65535 < p.port then
              Except.error "port must be between 1 and 65535"
            else if p.authMethod == authMethodPassword ||
                p.authMethod == authMethodOTP ||
                p.authMethod == authMethodSAML then
              if p.authMethod != authMethodSAML &&
                  goTrimSpaceStr p.username == "" then
                Except.error "username is required for password/OTP authentication"
              else Except.ok ()
            else if p.authMethod == authMethodCertificate then
              if goTrimSpaceStr p.clientCertPath == "" then
                Except.error "client certificate path is required for certificate authentication"
              else if goTrimSpaceStr p.clientKeyPath == "" then
                Except.error "client key path is required for certificate authentication"
              else Except.ok ()
            else
              Except.error ("invalid authentication method: " ++ p.authMethod)

/-! ## The output parser (`ParseLine`, `internal/vpn`)

Lines are modelled as rune lists.  The Go patterns are RE2 regexes over a
single line; each is simple enough to admit a direct executable model of
its leftmost-first matching:

* `lit([^s]+)s` (the `Authenticate at '…'` and `Got addresses: […]`
  patterns): at the leftmost start position where the literal matches and
  is followed by a nonempty run of non-`s` characters and then `s`, the
  capture is that run; failed positions advance by one character.
* plain-substring patterns (`Tunnel is up and running`, `Tunnel is down`,
  `Connecting to gateway`) are substring tests.
* `ERROR:\s*(.+)`: after the leftmost viable `ERROR:`, greedy `\s*`
  (RE2 `\s` = tab, newline, form feed, carriage return, space) backtracks
  just enough for `.+` (one or more non-newline characters) to match; the
  capture is the maximal non-newline run at that point.
* the case-insensitive prompts fold ASCII case on both sides (the
  patterns are ASCII; exotic Unicode foldings are outside this model). -/

/-- `EventType` from the parser (Go: a string type with eight constants;
the `etype` field name avoids shadowing). -/
inductive EventType where
  | authenticate
  | connecting
  | connected
  | disconnected
  | gotIP
  | error
  | otpRequired
  | passwordRequired
deriving DecidableEq, Repr

/-- `OutputEvent` from the parser: type, message, and the string-keyed data
map (modelled as an association list; `ParseLine` stores at most one
key). -/
structure OutputEvent where
  etype : EventType
  message : List Char
  data : List (String × List Char)
deriving DecidableEq, Repr

/-- `OutputEvent.GetData`: lookup with empty-string default. -/
def GetData (e : OutputEvent) (key : String) : List Char :=
  match e.data.find? (fun kv => kv.1 == key) with
  | some kv => kv.2
  | none => []

/-- The single-quote character (39). -/
def quoteChar : Char := Char.ofNat 39

/-- The opening square bracket (91). -/
def lbracketChar : Char := Char.ofNat 91

/-- The closing square bracket (93). -/
def rbracketChar : Char := Char.ofNat 93

/-- The newline character (10). -/
def nlChar : Char := Char.ofNat 10

/-- The literal part of `authenticatePattern`. -/
def authLit : List Char := "Authenticate at ".data ++ [quoteChar]

/-- `tunnelUpPattern`. -/
def tunnelUpLit : List Char := "Tunnel is up and running".data

/-- `tunnelDownPattern`. -/
def tunnelDownLit : List Char := "Tunnel is down".data

/-- The literal part of `gotAddressesPattern`. -/
def gotAddrLit : List Char := "Got addresses: ".data ++ [lbracketChar]

/-- The literal part of `errorPattern`. -/
def errLit : List Char := "ERROR:".data

/-- `connectingPattern`. -/
def connectingLit : List Char := "Connecting to gateway".data

/-- The three alternatives of `otpPattern` (already lowercase). -/
def otpLits : List (List Char) := ["two-factor".data, "otp".data, "token:".data]

/-- The alternative of `passwordPattern` (already lowercase). -/
def passwordLit : List Char := "password:".data

/-- The characters strictly before the first occurrence of `stop`; `none`
when `stop` does not occur. -/
def takeUntilChar (stop : Char) : List Char → Option (List Char)
  | [] => none
  | c :: t =>
    if c == stop then some []
    else (takeUntilChar stop t).map (fun cap => c :: cap)

/-- Leftmost match of `lit([^stop]+)stop`: the first start position where
`lit` matches and is followed by a nonempty capture closed by `stop`. -/
def findCapture (lit : List Char) (stop : Char) : List Char → Option (List Char)
  | [] => none
  | c :: t =>
    match (if listStartsWith lit (c :: t) then
            match takeUntilChar stop ((c :: t).drop lit.length) with
            | some cap => if cap.isEmpty then none else some cap
            | none => none
          else none) with
    | some cap => some cap
    | none => findCapture lit stop t

/-- RE2 `\s`: tab, newline, form feed, carriage return, space. -/
def regexSpace (c : Char) : Bool :=
  c.toNat == 9 || c.toNat == 10 || c.toNat == 12 || c.toNat == 13 ||
  c.toNat == 32

/-- The `\s*(.+)` tail of `errorPattern` applied to the text after
`ERROR:`: greedy whitespace, then a nonempty maximal run of non-newline
characters (backtracking into the whitespace when nothing else remains).
Returns the capture. -/
def errorTail (r : List Char) : Option (List Char) :=
  match r.dropWhile regexSpace with
  | c :: t => some ((c :: t).takeWhile (fun c2 => !(c2 == nlChar)))
  | [] =>
    match r.reverse.dropWhile (fun c2 => c2 == nlChar) with
    | c :: _ => some [c]
    | [] => none

/-- Leftmost match of `ERROR:\s*(.+)`. -/
def findErrorCapture : List Char → Option (List Char)
  | [] => none
  | c :: t =>
    match (if listStartsWith errLit (c :: t) then
            errorTail ((c :: t).drop errLit.length)
          else none) with
    | some cap => some cap
    | none => findErrorCapture t

/-- `ParseLine` from the parser source: blank lines yield nothing, then the
eight patterns are tried in the source's order, first match wins. -/
def ParseLine (line : List Char) : Option OutputEvent :=
  if (goTrimSpace line).isEmpty then none
  else
    match findCapture authLit quoteChar line with
    | some url => some ⟨.authenticate, line, [("url", url)]⟩
    | none =>
      if containsSub tunnelUpLit line then
        some ⟨.connected, "Tunnel is up and running".data, []⟩
      else if containsSub tunnelDownLit line then
        some ⟨.disconnected, "Tunnel is down".data, []⟩
      else
        match findCapture gotAddrLit rbracketChar line with
        | some ip => some ⟨.gotIP, line, [("ip", ip)]⟩
        | none =>
          match findErrorCapture line with
          | some msg => some ⟨.error, goTrimSpace msg, []⟩
          | none =>
            if containsSub connectingLit line then
              some ⟨.connecting, "Connecting to gateway".data, []⟩
            else if otpLits.any
                (fun pat => containsSub pat (line.map asciiLower)) then
              some ⟨.otpRequired, line, []⟩
            else if containsSub passwordLit (line.map asciiLower) then
              some ⟨.passwordRequired, line, []⟩
            else none

/-- The §4.1 table's event alphabet, following the spec's words: each event
carries exactly what the table lists. -/
inductive SpecEvent where
  | authenticate (url : List Char)
  | connecting
  | connected
  | disconnected
  | gotIP (ip : List Char)
  | error (message : List Char)
  | otpRequired
  | passwordRequired
deriving DecidableEq, Repr

/-- §4.1 row 1: `Authenticate at '<URL>'` → `Authenticate{url}`. -/
def specRule1 (l : List Char) : Option SpecEvent :=
  (findCapture authLit quoteChar l).map SpecEvent.authenticate

/-- §4.1 row 2: `Tunnel is up and running` → `Connected`. -/
def specRule2 (l : List Char) : Option SpecEvent :=
  if containsSub tunnelUpLit l then some SpecEvent.connected else none

/-- §4.1 row 3: `Tunnel is down` → `Disconnected`. -/
def specRule3 (l : List Char) : Option SpecEvent :=
  if containsSub tunnelDownLit l then some SpecEvent.disconnected else none

/-- §4.1 row 4: `Got addresses: [<IP>], ns [...]` → `GotIP{ip}` (first
bracketed group, no further validation). -/
def specRule4 (l : List Char) : Option SpecEvent :=
  (findCapture gotAddrLit rbracketChar l).map SpecEvent.gotIP

/-- §4.1 row 5: `ERROR: <msg>` → `Error{message = msg.trim()}`. -/
def specRule5 (l : List Char) : Option SpecEvent :=
  (findErrorCapture l).map (fun m => SpecEvent.error (goTrimSpace m))

/-- §4.1 row 6: `Connecting to gateway` → `Connecting`. -/
def specRule6 (l : List Char) : Option SpecEvent :=
  if containsSub connectingLit l then some SpecEvent.connecting else none

/-- §4.1 row 7: case-insensitive `two-factor` / `otp` / `token:` →
`OtpRequired`. -/
def specRule7 (l : List Char) : Option SpecEvent :=
  if otpLits.any (fun pat => containsSub pat (l.map asciiLower)) then
    some SpecEvent.otpRequired
  else none

/-- §4.1 row 8: case-insensitive `password:` → `PasswordRequired`. -/
def specRule8 (l : List Char) : Option SpecEvent :=
  if containsSub passwordLit (l.map asciiLower) then
    some SpecEvent.passwordRequired
  else none

/-- The §4.1 rules in the table's fixed order. -/
def specRules : List (List Char → Option SpecEvent) :=
  [specRule1, specRule2, specRule3, specRule4, specRule5, specRule6,
   specRule7, specRule8]

/-- First-match-wins over an ordered rule list. -/
def firstSome : List (List Char → Option SpecEvent) → List Char →
    Option SpecEvent
  | [], _ => none
  | r :: rs, l =>
    match r l with
    | some e => some e
    | none => firstSome rs l

/-- The §4.1 table as a function, following the spec's words:
blank/whitespace-only lines yield `None`, otherwise the first matching rule
(in table order) determines the event. -/
def specParseLine (l : List Char) : Option SpecEvent :=
  if (goTrimSpace l).isEmpty then none else firstSome specRules l

/-- Abstraction from the code's events to the table's alphabet. -/
def eventAbs (e : OutputEvent) : SpecEvent :=
  match e.etype with
  | .authenticate => SpecEvent.authenticate (GetData e "url")
  | .connecting => SpecEvent.connecting
  | .connected => SpecEvent.connected
  | .disconnected => SpecEvent.disconnected
  | .gotIP => SpecEvent.gotIP (GetData e "ip")
  | .error => SpecEvent.error e.message
  | .otpRequired => SpecEvent.otpRequired
  | .passwordRequired => SpecEvent.passwordRequired

/-- No pattern of the table matches the line. -/
def noPatternMatches (l : List Char) : Bool :=
  (findCapture authLit quoteChar l).isNone &&
  !containsSub tunnelUpLit l &&
  !containsSub tunnelDownLit l &&
  (findCapture gotAddrLit rbracketChar l).isNone &&
  (findErrorCapture l).isNone &&
  !containsSub connectingLit l &&
  !(otpLits.any (fun pat => containsSub pat (l.map asciiLower))) &&
  !containsSub passwordLit (l.map asciiLower)

/-! ## `Controller.Connect` and friends (`internal/vpn/controller.go`) -/

/-- `ConnectOptions` from `controller.go`.  Go callers may pass `nil`, which
`Connect` replaces with the zero value, so the embedding is the struct
itself. -/
structure ConnectOptions where
  password : String
  otp : String
deriving DecidableEq, Repr

/-- `Controller.buildCommandArgs` from `controller.go` (positional,
order-significant argv for openfortivpn). -/
def buildCommandArgs (p : Profile) (opts : ConnectOptions) : List String :=
  [p.host ++ ":" ++ toString p.port] ++
  (if (p.authMethod == authMethodPassword || p.authMethod == authMethodOTP) &&
      p.username != "" then ["-u", p.username] else []) ++
  (if opts.otp != "" then ["--otp=" ++ opts.otp] else []) ++
  (if p.realm != "" then ["--realm=" ++ p.realm] else []) ++
  [if p.setDNS then "--set-dns=1" else "--set-dns=0"] ++
  [if p.setRoutes then "--set-routes=1" else "--set-routes=0"] ++
  [if p.halfInternetRoutes then "--half-internet-routes=1"
   else "--half-internet-routes=0"] ++
  (if p.authMethod == authMethodCertificate then
    (if p.clientCertPath != "" then ["--user-cert=" ++ p.clientCertPath]
     else []) ++
    (if p.clientKeyPath != "" then ["--user-key=" ++ p.clientKeyPath] else [])
  else []) ++
  (if p.authMethod == authMethodSAML then ["--saml-login"] else []) ++
  (if p.trustedCert != "" then ["--trusted-cert=" ++ p.trustedCert] else [])

/-- The byte sequences `Controller.setupPasswordInput` writes to the child's
input: nothing for SAML or an empty password, otherwise the password
followed by one newline.  (The Go function spawns a goroutine performing
exactly these writes; write errors only reach `onError`.) -/
def stdinWrites (p : Profile) (password : String) : List String :=
  if p.authMethod == authMethodSAML || password == "" then []
  else [password ++ String.mk [Char.ofNat 10]]

/-- Outcome of `startProcess`'s two fallible interactions with the
executor: `CreateProcess` and `Process.Start`. -/
inductive SpawnOutcome where
  | createFail (msg : String)
  | startFail (msg : String)
  | started
deriving DecidableEq, Repr

/-- `Controller.Connect` from `controller.go`, restricted to its observable
effect on the connection state.  The pair is (call result, post state).
Argv construction (`buildCommandArgs`), the password feeder
(`stdinWrites`) and the output/waiter goroutines have no effect on the
state within the call and are modelled separately. -/
def connect (c : ControllerState) (p : Profile) (_opts : ConnectOptions)
    (spawn : SpawnOutcome) : Except String Unit × ControllerState :=
  if !(CanConnect c.state) then
    (Except.error ("cannot connect: current state is " ++ stateStr c.state), c)
  else
    match Validate p with
    | Except.error e => (Except.error ("invalid profile: " ++ e), c)
    | Except.ok () =>
      match setState c .connecting with
      | (Except.error e, c1) =>
        (Except.error ("failed to set connecting state: " ++ e), c1)
      | (Except.ok (), c1) =>
        match spawn with
        | .createFail m =>
          (Except.error ("failed to create process: " ++ m),
           (setState c1 .failed).2)
        | .startFail m =>
          (Except.error ("failed to start openfortivpn: " ++ m),
           (setState c1 .failed).2)
        | .started => (Except.ok (), c1)

/-! ## The helper protocol and manager
(`internal/helper/protocol`, `internal/helper/manager/manager.go`, the
variant with path validation and disconnect-failure cleanup) -/

/-- `protocol.Error` (code and message). -/
structure ProtocolError where
  code : String
  message : String
deriving DecidableEq, Repr

/-- `protocol.Response`.  The `result` payload is carried separately where
a claim needs it; `NewSuccessResponse`'s JSON marshalling of the handlers'
payloads (`nil` and `StatusResult`) cannot fail and is not modelled. -/
structure Response where
  id : String
  success : Bool
  error : Option ProtocolError
deriving DecidableEq, Repr

/-- `protocol.NewErrorResponse`. -/
def NewErrorResponse (id code message : String) : Response :=
  { id := id, success := false, error := some ⟨code, message⟩ }

/-- `protocol.NewSuccessResponse` (payload modelled separately). -/
def NewSuccessResponse (id : String) : Response :=
  { id := id, success := true, error := none }

/-- `filepath.IsAbs` on Unix: the path starts with `/`. -/
def filepathIsAbs (path : String) : Bool :=
  listStartsWith ['/'] path.data

/-- The element-stack pass of `filepath.Clean`: drop empty and `.`
elements; `..` pops a non-`..` stack top, is dropped at the root, and is
kept for relative paths.  `acc` is the output stack, reversed. -/
def cleanElems (rooted : Bool) : List (List Char) → List (List Char) →
    List (List Char)
  | acc, [] => acc.reverse
  | acc, e :: rest =>
    if e.isEmpty || e == ['.'] then cleanElems rooted acc rest
    else if e == ['.', '.'] then
      match acc with
      | top :: acc2 =>
        if top == ['.', '.'] then cleanElems rooted (e :: top :: acc2) rest
        else cleanElems rooted acc2 rest
      | [] =>
        if rooted then cleanElems rooted [] rest
        else cleanElems rooted [e] rest
    else cleanElems rooted (e :: acc) rest

/-- Join path elements with `/`. -/
def joinSlash : List (List Char) → List Char
  | [] => []
  | [e] => e
  | e :: e2 :: rest => e ++ '/' :: joinSlash (e2 :: rest)

/-- `filepath.Clean` for Unix paths (lexical cleaning). -/
def filepathClean (path : String) : String :=
  match path.data with
  | [] => "."
  | c :: t =>
    let rooted := c == '/'
    let elems := cleanElems rooted [] (splitOnChar '/' (c :: t))
    if rooted then String.mk ('/' :: joinSlash elems)
    else if elems.isEmpty then "."
    else String.mk (joinSlash elems)

/-- `sensitivePathPrefixes` from `manager.go`. -/
def sensitivePaths : List String :=
  ["/etc/shadow", "/etc/gshadow", "/etc/sudoers", "/etc/passwd",
   "/etc/group", "/etc/ssh/", "/etc/security/", "/etc/pam.d/",
   "/etc/krb5.keytab", "/root/", "/proc/", "/sys/", "/dev/", "/boot/",
   "/var/lib/secrets/", "/var/log/"]

/-- `isSensitivePath` from `manager.go`. -/
def isSensitivePath (path : String) : Bool :=
  let cleanPath := filepathClean path
  sensitivePaths.any (fun pre =>
    cleanPath == pre || listStartsWith pre.data cleanPath.data)

/-- Outcome of `resolvePathSafely` for a given path, covering its `Lstat`
and `EvalSymlinks` calls: either call can fail with a not-exist error or
another error, or the path resolves. -/
inductive ResolveOutcome where
  | lstatErrNotExist
  | lstatErrOther (msg : String)
  | evalErrNotExist
  | evalErrOther (msg : String)
  | resolved (realPath : String)
deriving DecidableEq, Repr

/-- The filesystem environment: what `resolvePathSafely` observes for each
path. -/
def FileSystem : Type := String → ResolveOutcome

/-- `validateFilePath` from `manager.go` (the variant with symlink
resolution): empty paths pass, `..` anywhere or a relative path fails,
a not-exist error from resolution passes (openfortivpn will report it),
any other resolution error fails, and a resolved path must not be
sensitive. -/
def validateFilePath (fs : FileSystem) (path : String) : Except String Unit :=
  if path == "" then Except.ok ()
  else if containsSub ['.', '.'] path.data then
    Except.error "path traversal not allowed"
  else if !filepathIsAbs path then Except.error "path must be absolute"
  else
    match fs path with
    | .lstatErrNotExist => Except.ok ()
    | .evalErrNotExist => Except.ok ()
    | .lstatErrOther m => Except.error ("failed to resolve path: " ++ m)
    | .evalErrOther m => Except.error ("failed to resolve path: " ++ m)
    | .resolved realPath =>
      if isSensitivePath realPath then
        Except.error "access to sensitive system path not allowed"
      else Except.ok ()

/-- The manager's observable state: the wrapped controller's connection
state and the stored `connectedProfileID`. -/
structure ManagerState where
  ctrl : ConnectionState
  connectedProfileID : String
deriving DecidableEq, Repr

/-- `protocol.ConnectParams`. -/
structure ConnectParams where
  profileID : String
  host : String
  port : Int
  username : String
  password : String
  otp : String
  authMethod : String
  realm : String
  trustedCert : String
  clientCertPath : String
  clientKeyPath : String
  setDNS : Bool
  setRoutes : Bool
  halfInternetRoutes : Bool
deriving DecidableEq, Repr

/-- The profile `handleConnect` builds from its params (name is the fixed
`"helper-connection"`, description empty). -/
def profileFromParams (params : ConnectParams) : Profile :=
  { id := params.profileID, name := "helper-connection", description := "",
    host := params.host, port := params.port,
    authMethod := params.authMethod, username := params.username,
    realm := params.realm, trustedCert := params.trustedCert,
    clientCertPath := params.clientCertPath,
    clientKeyPath := params.clientKeyPath, setDNS := params.setDNS,
    setRoutes := params.setRoutes,
    halfInternetRoutes := params.halfInternetRoutes, autoReconnect := false }

/-- `Manager.handleDisconnect` from `manager.go` (the variant that clears
the profile id on a disconnect failure).  `disconnectErr` is the outcome of
`Controller.Disconnect`. -/
def handleDisconnect (m : ManagerState) (reqId : String)
    (disconnectErr : Option String) : Response × ManagerState :=
  if !(CanDisconnect m.ctrl) then
    (NewErrorResponse reqId "INVALID_STATE"
      ("cannot disconnect: current state is " ++ stateStr m.ctrl), m)
  else
    match disconnectErr with
    | some e =>
      (NewErrorResponse reqId "DISCONNECT_FAILED" e,
       { m with connectedProfileID := "" })
    | none =>
      (NewSuccessResponse reqId, { m with connectedProfileID := "" })

/-- `protocol.StatusResult` (the assigned IP is not tracked by
`ManagerState` and is omitted). -/
structure StatusResult where
  state : String
  connectedProfileID : String
deriving DecidableEq, Repr

/-- The payload of `Manager.handleStatus`. -/
def statusResult (m : ManagerState) : StatusResult :=
  { state := stateStr m.ctrl, connectedProfileID := m.connectedProfileID }

/-! ### Fine-grained interleaving model of the manager and controller

Neither a controller state change nor a connect request is atomic in the
source: `Controller.setState` commits the new state under `c.mu` and then
invokes the callback *outside* the lock (controller.go:87-105), and
`Manager.onStateChange` broadcasts the event to every client socket
*before* clearing the profile id (manager.go:539-556); `handleConnect`
records the requested profile id under `m.mu` before `Controller.Connect`
runs (manager.go:391-409).  A concurrent `status` request takes the locks
only briefly and can observe the intermediate states of both windows.

The model therefore splits each mutation sequence into its
lock-delimited phases, recorded in a `Pending` slot, and lets `status`
observe the state in every phase.  One mutation sequence is in flight at
a time (`setState` commits are serialised by `c.mu`; while a connect
request is between its id record and its commit of `Connecting`, the
controller is in a `can_connect` state with no child process, so no
output- or exit-driven transition can race it); overlapping mutators are
not modelled. -/

/-- The in-flight phase of a mutation sequence. -/
inductive Pending where
  | idle
  /-- `setState` has committed `newState` under `c.mu`
  (controller.go:87-105); the `onStateChange` broadcast and its
  conditional profile-id clear (manager.go:539-556) have not run yet. -/
  | stateChangeCommitted (newState : ConnectionState)
  /-- `handleConnect` has passed validation and, under `m.mu`, checked
  `CanConnect` and recorded the requested profile id
  (manager.go:391-400); `Controller.Connect` has not run yet. -/
  | connectRecorded (pid : String)
  /-- `Controller.Connect` failed to create or start the process and
  `setState(Failed)` is committed (controller.go:381-407); the callback's
  clear and the handler's own clear (manager.go:409-413) are still to
  run. -/
  | connectFailedCommitted (pid : String)
deriving DecidableEq, Repr

/-- The observable state of the daemon: committed controller state, stored
profile id, and the phase of the mutation sequence in flight. -/
structure FineState where
  ctrl : ConnectionState
  profileID : String
  pending : Pending
deriving DecidableEq, Repr

/-- Completion of `Manager.onStateChange` (manager.go:550-555): after the
broadcast, clear the profile id iff the new state is `Disconnected` or
`Failed`. -/
def finishStateChangeUpdate (s : FineState) (newState : ConnectionState) :
    FineState :=
  { ctrl := s.ctrl,
    profileID :=
      if newState == ConnectionState.disconnected ||
          newState == ConnectionState.failed then ""
      else s.profileID,
    pending := Pending.idle }

/-- One lock-delimited step of the manager/controller.  `status` requests
(and requests rejected before touching state) are the no-op `statusReq`
and may run in every phase — these are the observations the claim is
about. -/
inductive FineStep : FineState → FineState → Prop where
  /-- `Controller.setState` commits a legal transition under `c.mu` and
  invokes the state-change callback outside the lock
  (controller.go:87-105). -/
  | commitStateChange (s : FineState) (newState : ConnectionState)
      (hidle : s.pending = Pending.idle)
      (hvalid : IsValidTransition s.ctrl newState = true) :
      FineStep s ⟨newState, s.profileID, Pending.stateChangeCommitted newState⟩
  /-- `Manager.onStateChange` finishes: event broadcast to every client,
  then the conditional profile-id clear (manager.go:539-556). -/
  | finishStateChange (s : FineState) (newState : ConnectionState)
      (hpend : s.pending = Pending.stateChangeCommitted newState) :
      FineStep s (finishStateChangeUpdate s newState)
  /-- `Manager.handleConnect` passes path and profile validation and, under
  `m.mu`, checks `CanConnect` and optimistically records the requested
  profile id (manager.go:358-400). -/
  | beginConnect (s : FineState) (fs : FileSystem) (params : ConnectParams)
      (hidle : s.pending = Pending.idle)
      (hcert : validateFilePath fs params.clientCertPath = Except.ok ())
      (hkey : validateFilePath fs params.clientKeyPath = Except.ok ())
      (hprof : Validate (profileFromParams params) = Except.ok ())
      (hcan : CanConnect s.ctrl = true) :
      FineStep s ⟨s.ctrl, params.profileID,
        Pending.connectRecorded params.profileID⟩
  /-- `Controller.Connect` succeeds: `Connecting` committed (its callback
  clears nothing) and the handler returns success (controller.go:319-355,
  manager.go:416-420). -/
  | connectSucceeds (s : FineState) (pid : String)
      (hpend : s.pending = Pending.connectRecorded pid)
      (hvalid : IsValidTransition s.ctrl ConnectionState.connecting = true) :
      FineStep s ⟨ConnectionState.connecting, s.profileID, Pending.idle⟩
  /-- `Controller.Connect` fails to create or start the process:
  `setState(Failed)` committed (controller.go:381-407). -/
  | connectSpawnFails (s : FineState) (pid : String)
      (hpend : s.pending = Pending.connectRecorded pid)
      (hvalid : IsValidTransition s.ctrl ConnectionState.failed = true) :
      FineStep s ⟨ConnectionState.failed, s.profileID,
        Pending.connectFailedCommitted pid⟩
  /-- The failing connect handler finishes: the callback's clear and the
  handler's own clear run and `CONNECTION_FAILED` is returned
  (manager.go:409-413). -/
  | finishConnectFail (s : FineState) (pid : String)
      (hpend : s.pending = Pending.connectFailedCommitted pid) :
      FineStep s ⟨s.ctrl, "", Pending.idle⟩
  /-- `Manager.handleDisconnect` (manager.go:494-519).  Its only effect on
  the pair (controller state, stored id) is the conditional clear; the
  eventual `Disconnected` transition arrives later via `onStateChange`. -/
  | disconnectReq (s : FineState) (reqId : String) (derr : Option String)
      (hidle : s.pending = Pending.idle) :
      FineStep s ⟨s.ctrl,
        (handleDisconnect ⟨s.ctrl, s.profileID⟩ reqId derr).2.connectedProfileID,
        Pending.idle⟩
  /-- `Manager.handleStatus` (manager.go:521-537) only reads; requests
  rejected by validation likewise change nothing. -/
  | statusReq (s : FineState) : FineStep s s

/-- Daemon states reachable from the initial state (controller starts
`Disconnected`, no stored profile id, nothing in flight). -/
inductive FineReachable : FineState → Prop where
  | init : FineReachable ⟨.disconnected, "", Pending.idle⟩
  | step {s s2 : FineState} :
      FineReachable s → FineStep s s2 → FineReachable s2

/-- The status payload a concurrent `status` request produces in a given
state (manager.go:521-537 reads the controller state and the stored id). -/
def fineStatus (s : FineState) : StatusResult :=
  statusResult ⟨s.ctrl, s.profileID⟩

/-! ## Concrete inputs used by witnesses and counterexamples -/

/-- A valid password-method profile. -/
def sampleProfile : Profile :=
  { id := "123e4567-e89b-12d3-a456-426614174000", name := "Work VPN",
    description := "", host := "vpn.example.com", port := 443,
    authMethod := authMethodPassword, username := "alice", realm := "",
    trustedCert := "", clientCertPath := "", clientKeyPath := "",
    setDNS := true, setRoutes := true, halfInternetRoutes := false,
    autoReconnect := true }

/-- A valid SAML-method profile. -/
def samlProfile : Profile :=
  { sampleProfile with authMethod := authMethodSAML, username := "" }

/-- An invalid profile (port 0). -/
def invalidPortProfile : Profile :=
  { sampleProfile with port := 0 }

/-- Valid connect params for the manager (password method, no certificate
paths). -/
def sampleParams : ConnectParams :=
  { profileID := "123e4567-e89b-12d3-a456-426614174000",
    host := "vpn.example.com", port := 443, username := "alice",
    password := "hunter2", otp := "", authMethod := authMethodPassword,
    realm := "", trustedCert := "", clientCertPath := "",
    clientKeyPath := "", setDNS := true, setRoutes := true,
    halfInternetRoutes := false }

/-- A filesystem on which every path's `Lstat` reports not-exist. -/
def fsNotExist : FileSystem := fun _ => ResolveOutcome.lstatErrNotExist

/-- A profile whose name is 101 bytes long. -/
def longNameProfile : Profile :=
  { sampleProfile with name := String.mk (List.replicate 101 'a') }

/-! ## Theorems -/

/-- `"-u"` is never the host:port argument (that argument contains a
colon). -/
theorem dash_u_ne_hostport (a b : String) : ("-u" : String) ≠ a ++ ":" ++ b := by
  intro h
  have hd : (a ++ ":" ++ b).data = "-u".data := congrArg String.data h.symm
  rw [String.data_append, String.data_append] at hd
  have hc : ':' ∈ a.data ++ ":".data ++ b.data := by simp [List.mem_append]
  rw [hd] at hc
  simp at hc

/-- `"-u"` is never an `--otp=` argument. -/
theorem dash_u_ne_otp (s : String) : ("-u" : String) ≠ "--otp=" ++ s := by
  intro h
  have hd := congrArg String.data h
  rw [String.data_append] at hd
  simp at hd

/-- `"-u"` is never a `--realm=` argument. -/
theorem dash_u_ne_realm (s : String) : ("-u" : String) ≠ "--realm=" ++ s := by
  intro h
  have hd := congrArg String.data h
  rw [String.data_append] at hd
  simp at hd

/-- `"-u"` is never a `--trusted-cert=` argument. -/
theorem dash_u_ne_trusted (s : String) :
    ("-u" : String) ≠ "--trusted-cert=" ++ s := by
  intro h
  have hd := congrArg String.data h
  rw [String.data_append] at hd
  simp at hd

/-- C1.  The Controller commits exactly the state transitions of the
legal-transition table: `IsValidTransition from to` is true iff `(from, to)`
is listed in the §3 table; `setState` commits the new state exactly when the
transition is valid and otherwise returns an error leaving the state
unchanged; and no self-transition is valid. -/
theorem controller_commits_exactly_legal_transitions :
    ∀ f t : ConnectionState,
      (IsValidTransition f t = true ↔ (f, t) ∈ specLegalTransitions) ∧
      (IsValidTransition f t = true →
        setState ⟨f⟩ t = (Except.ok (), ⟨t⟩)) ∧
      (IsValidTransition f t = false →
        exceptIsErr (setState ⟨f⟩ t).1 = true ∧ (setState ⟨f⟩ t).2 = ⟨f⟩) ∧
      IsValidTransition f f = false := by
  decide

/-- Witness for C1 at a concrete transition: `Disconnected → Connecting` is
in the table and `setState` commits it, while the self-transition
`Connected → Connected` is rejected and leaves the state unchanged. -/
theorem controller_commits_exactly_legal_transitions_witness :
    setState ⟨.disconnected⟩ .connecting =
      (Except.ok (), ⟨.connecting⟩) ∧
    exceptIsErr (setState ⟨.connected⟩ .connected).1 = true ∧
    (setState ⟨.connected⟩ .connected).2 = ⟨.connected⟩ :=
  ⟨(controller_commits_exactly_legal_transitions .disconnected .connecting).2.1
      (by decide),
   (controller_commits_exactly_legal_transitions .connected .connected).2.2.1
      (by decide)⟩

/-- C6.  The elevated executor's `Kill`: success when the process handle is
absent; success when SIGTERM to the negative group id succeeds or reports
`ESRCH`; otherwise escalation to SIGKILL, treating `ESRCH` as success and
failing only when SIGKILL fails for another reason.  In particular `Kill`
after the group has exited (`ESRCH`) returns success. -/
theorem direct_kill_contract :
    ∀ (term kill : SigResult) (m m' : String),
      directKill false term kill = Except.ok () ∧
      directKill true SigResult.ok kill = Except.ok () ∧
      directKill true SigResult.esrch kill = Except.ok () ∧
      directKill true (SigResult.err m) SigResult.ok = Except.ok () ∧
      directKill true (SigResult.err m) SigResult.esrch = Except.ok () ∧
      directKill true (SigResult.err m) (SigResult.err m') =
        Except.error ("failed to kill process group: " ++ m') := by
  intro term kill m m'
  refine ⟨?_, rfl, rfl, rfl, rfl, rfl⟩
  cases term <;> rfl

/-- C4.  Any line longer than 65,536 bytes (newline included) is rejected
with an `INVALID_REQUEST` error and the connection is dropped; a line of
exactly 65,536 bytes is accepted. -/
theorem line_size_limit :
    ∀ line : List Char,
      (line.length > 65536 →
        handleIncomingLine line = LineDisposition.rejected "INVALID_REQUEST" true) ∧
      (line.length = 65536 → handleIncomingLine line = LineDisposition.accepted) := by
  intro line
  constructor
  · intro h
    simp only [handleIncomingLine, maxMessageSize, if_pos h]
  · intro h
    simp only [handleIncomingLine, maxMessageSize, h]
    simp

/-- Witness for C4: a 65,537-byte line is rejected with `INVALID_REQUEST`
and the connection dropped; a 65,536-byte line is accepted. -/
theorem line_size_limit_witness :
    handleIncomingLine (List.replicate 65537 'x') =
      LineDisposition.rejected "INVALID_REQUEST" true ∧
    handleIncomingLine (List.replicate 65536 'x') = LineDisposition.accepted :=
  ⟨(line_size_limit (List.replicate 65537 'x')).1
      (by simp only [List.length_replicate]; decide),
   (line_size_limit (List.replicate 65536 'x')).2
      (by simp only [List.length_replicate])⟩

/-- C7.  When the controller state allows disconnecting: a failing
`Controller.Disconnect` yields a `DISCONNECT_FAILED` response and clears the
stored profile id, and a successful one yields a success response and
likewise clears it. -/
theorem handle_disconnect_clears_profile :
    ∀ (m : ManagerState) (reqId : String) (disconnectErr : Option String),
      CanDisconnect m.ctrl = true →
      (∀ e, disconnectErr = some e →
        (handleDisconnect m reqId disconnectErr).1 =
          NewErrorResponse reqId "DISCONNECT_FAILED" e ∧
        (handleDisconnect m reqId disconnectErr).2.connectedProfileID = "") ∧
      (disconnectErr = none →
        (handleDisconnect m reqId disconnectErr).1 = NewSuccessResponse reqId ∧
        (handleDisconnect m reqId disconnectErr).2.connectedProfileID = "") := by
  intro m reqId disconnectErr h
  unfold handleDisconnect
  simp only [h, Bool.not_true, Bool.false_eq_true, if_false]
  constructor
  · intro e he
    subst he
    exact ⟨rfl, rfl⟩
  · intro he
    subst he
    exact ⟨rfl, rfl⟩

/-- Witness for C7 at the state `Connected` with stored profile id
`"prof-1"`: both the failing and the succeeding disconnect clear the id and
return the matching response. -/
theorem handle_disconnect_clears_profile_witness :
    ((handleDisconnect ⟨.connected, "prof-1"⟩ "r1" (some "kill failed")).1 =
      NewErrorResponse "r1" "DISCONNECT_FAILED" "kill failed" ∧
     (handleDisconnect ⟨.connected, "prof-1"⟩ "r1" (some "kill failed")).2.connectedProfileID = "") ∧
    ((handleDisconnect ⟨.connected, "prof-1"⟩ "r2" none).1 = NewSuccessResponse "r2" ∧
     (handleDisconnect ⟨.connected, "prof-1"⟩ "r2" none).2.connectedProfileID = "") :=
  ⟨((handle_disconnect_clears_profile ⟨.connected, "prof-1"⟩ "r1"
      (some "kill failed") (by decide)).1 "kill failed" rfl),
   ((handle_disconnect_clears_profile ⟨.connected, "prof-1"⟩ "r2"
      none (by decide)).2 rfl)⟩

/-- C8.  An absolute certificate or key path without a `..` substring whose
`Lstat` reports not-exist passes `validateFilePath` without error: the
sensitive-prefix check runs only for paths that exist and resolve, so a
nonexistent path inside a sensitive location is accepted. -/
theorem nonexistent_path_passes_validation :
    ∀ (fs : FileSystem) (path : String),
      containsSub ['.', '.'] path.data = false →
      filepathIsAbs path = true →
      fs path = ResolveOutcome.lstatErrNotExist →
      validateFilePath fs path = Except.ok () := by
  intro fs path h1 h2 h3
  unfold validateFilePath
  by_cases hp : path == ""
  · simp [hp]
  · simp [hp, h1, h2, h3]

/-- Witness for C8: `/etc/shadow/missing.pem` — nonexistent and inside the
sensitive set — passes validation. -/
theorem nonexistent_path_passes_validation_witness :
    validateFilePath (fun _ => ResolveOutcome.lstatErrNotExist)
      "/etc/shadow/missing.pem" = Except.ok () :=
  nonexistent_path_passes_validation (fun _ => ResolveOutcome.lstatErrNotExist)
    "/etc/shadow/missing.pem" (by decide) (by decide) rfl

/-- C2.  For a SAML profile, `Connect` writes nothing to the child's input
whatever the supplied password (two runs differing only in the password
perform the same writes, namely none), the constructed argv is identical
for any two passwords (so the password never reaches argv), it contains
`--saml-login`, and it contains no `-u`. -/
theorem saml_never_exposes_password :
    ∀ (p : Profile) (pw pw2 otp : String),
      p.authMethod = authMethodSAML →
      stdinWrites p pw = [] ∧
      stdinWrites p pw2 = stdinWrites p pw ∧
      buildCommandArgs p ⟨pw, otp⟩ = buildCommandArgs p ⟨pw2, otp⟩ ∧
      "--saml-login" ∈ buildCommandArgs p ⟨pw, otp⟩ ∧
      "-u" ∉ buildCommandArgs p ⟨pw, otp⟩ := by
  intro p pw pw2 otp h
  refine ⟨?_, ?_, rfl, ?_, ?_⟩
  · simp [stdinWrites, h, authMethodSAML]
  · simp [stdinWrites, h, authMethodSAML]
  · simp [buildCommandArgs, h, authMethodSAML, authMethodPassword,
      authMethodOTP, authMethodCertificate]
  · intro hmem
    by_cases d1 : p.setDNS <;> by_cases d2 : p.setRoutes <;>
      by_cases d3 : p.halfInternetRoutes <;>
      simp [buildCommandArgs, h, authMethodSAML, authMethodPassword,
        authMethodOTP, authMethodCertificate, d1, d2, d3, dash_u_ne_hostport,
        dash_u_ne_otp, dash_u_ne_realm, dash_u_ne_trusted] at hmem

/-- Witness for C2: the concrete SAML profile with passwords `"hunter2"`
and `""` — no stdin writes, identical argv, `--saml-login` present, `-u`
absent. -/
theorem saml_never_exposes_password_witness :
    stdinWrites samlProfile "hunter2" = [] ∧
    stdinWrites samlProfile "" = stdinWrites samlProfile "hunter2" ∧
    buildCommandArgs samlProfile ⟨"hunter2", ""⟩ =
      buildCommandArgs samlProfile ⟨"", ""⟩ ∧
    "--saml-login" ∈ buildCommandArgs samlProfile ⟨"hunter2", ""⟩ ∧
    "-u" ∉ buildCommandArgs samlProfile ⟨"hunter2", ""⟩ :=
  saml_never_exposes_password samlProfile "hunter2" "" "" rfl

/-- From any state that allows connecting, the transition to `Connecting`
is legal. -/
theorem can_connect_to_connecting :
    ∀ st : ConnectionState, CanConnect st = true →
      IsValidTransition st ConnectionState.connecting = true := by
  decide

/-- C3 counterexample.  `Connect` invoked while the state is `Connecting`
returns an error (the `CanConnect` precondition fails) and leaves the state
unchanged — so `GetState` after an error-returning `Connect` *is*
`Connecting` here, refuting the claim's "never Connecting" conjunct. -/
theorem connect_error_can_leave_connecting :
    exceptIsErr (connect ⟨.connecting⟩ sampleProfile ⟨"pw", ""⟩
      SpawnOutcome.started).1 = true ∧
    (connect ⟨.connecting⟩ sampleProfile ⟨"pw", ""⟩
      SpawnOutcome.started).2.state = ConnectionState.connecting := by
  constructor
  · rfl
  · rfl

/-- C3 as amended.  For every `Connect` call that returns an error the
post state is `Failed` or equal to the pre-call state; in particular an
error exit never *newly* enters `Connecting` (the post state is
`Connecting` only if the pre state already was).  Precondition failures
(state not `can_connect`, invalid profile) leave the state unchanged, and
process-creation or process-start failures transition it to `Failed`. -/
theorem connect_error_state_amended :
    ∀ (st : ConnectionState) (p : Profile) (opts : ConnectOptions)
      (spawn : SpawnOutcome),
      exceptIsErr (connect ⟨st⟩ p opts spawn).1 = true →
      ((connect ⟨st⟩ p opts spawn).2.state = st ∨
        (connect ⟨st⟩ p opts spawn).2.state = ConnectionState.failed) ∧
      (st ≠ ConnectionState.connecting →
        (connect ⟨st⟩ p opts spawn).2.state ≠ ConnectionState.connecting) ∧
      (CanConnect st = false → (connect ⟨st⟩ p opts spawn).2 = ⟨st⟩) ∧
      (CanConnect st = true → exceptIsErr (Validate p) = true →
        (connect ⟨st⟩ p opts spawn).2 = ⟨st⟩) ∧
      (CanConnect st = true → exceptIsErr (Validate p) = false →
        (connect ⟨st⟩ p opts spawn).2.state = ConnectionState.failed) := by
  intro st p opts spawn herr
  by_cases hcb : CanConnect st = true
  · have hvalid : IsValidTransition st ConnectionState.connecting = true :=
      can_connect_to_connecting st hcb
    cases hv : Validate p with
    | error e =>
      have hpost : connect ⟨st⟩ p opts spawn =
          (Except.error ("invalid profile: " ++ e), ⟨st⟩) := by
        simp [connect, hcb, hv]
      rw [hpost]
      refine ⟨Or.inl rfl, ?_, ?_, ?_, ?_⟩
      · intro hne h2
        exact hne h2
      · intro _
        rfl
      · intro _ _
        rfl
      · intro _ h3
        simp [exceptIsErr] at h3
    | ok u =>
      cases u
      have hset : setState ⟨st⟩ ConnectionState.connecting =
          (Except.ok (), ⟨ConnectionState.connecting⟩) := by
        simp [setState, hvalid]
      have hset2 : (setState ⟨ConnectionState.connecting⟩
          ConnectionState.failed).2 = ⟨ConnectionState.failed⟩ := by decide
      cases spawn with
      | createFail m =>
        have hpost : connect ⟨st⟩ p opts (SpawnOutcome.createFail m) =
            (Except.error ("failed to create process: " ++ m),
             ⟨ConnectionState.failed⟩) := by
          simp [connect, hcb, hv, hset, hset2]
        rw [hpost]
        refine ⟨Or.inr rfl, ?_, ?_, ?_, ?_⟩
        · intro _
          show ConnectionState.failed ≠ ConnectionState.connecting
          decide
        · intro h2
          rw [h2] at hcb
          exact Bool.noConfusion hcb
        · intro _ h3
          simp [exceptIsErr] at h3
        · intro _ _
          rfl
      | startFail m =>
        have hpost : connect ⟨st⟩ p opts (SpawnOutcome.startFail m) =
            (Except.error ("failed to start openfortivpn: " ++ m),
             ⟨ConnectionState.failed⟩) := by
          simp [connect, hcb, hv, hset, hset2]
        rw [hpost]
        refine ⟨Or.inr rfl, ?_, ?_, ?_, ?_⟩
        · intro _
          show ConnectionState.failed ≠ ConnectionState.connecting
          decide
        · intro h2
          rw [h2] at hcb
          exact Bool.noConfusion hcb
        · intro _ h3
          simp [exceptIsErr] at h3
        · intro _ _
          rfl
      | started =>
        have hpost : connect ⟨st⟩ p opts SpawnOutcome.started =
            (Except.ok (), ⟨ConnectionState.connecting⟩) := by
          simp [connect, hcb, hv, hset]
        rw [hpost] at herr
        simp [exceptIsErr] at herr
  · have hcf : CanConnect st = false := by
      cases hcc : CanConnect st
      · rfl
      · exact absurd hcc hcb
    have hpost : connect ⟨st⟩ p opts spawn =
        (Except.error ("cannot connect: current state is " ++ stateStr st),
         ⟨st⟩) := by
      simp [connect, hcf]
    rw [hpost]
    refine ⟨Or.inl rfl, ?_, ?_, ?_, ?_⟩
    · intro hne h2
      exact hne h2
    · intro _
      rfl
    · intro _ _
      rfl
    · intro h2 _
      rw [h2] at hcf
      exact Bool.noConfusion hcf

/-- Witness for C3 (amended): a precondition failure (invalid profile,
port 0) from `Disconnected` leaves the state `Disconnected`, and a
process-creation failure from `Failed` leaves the state `Failed`. -/
theorem connect_error_state_amended_witness :
    (connect ⟨.disconnected⟩ invalidPortProfile ⟨"pw", ""⟩
      SpawnOutcome.started).2 = ⟨.disconnected⟩ ∧
    (connect ⟨.failed⟩ sampleProfile ⟨"pw", ""⟩
      (SpawnOutcome.createFail "boom")).2.state = ConnectionState.failed :=
  ⟨(connect_error_state_amended .disconnected invalidPortProfile ⟨"pw", ""⟩
      SpawnOutcome.started (by decide)).2.2.2.1 (by decide) (by decide),
   (connect_error_state_amended .failed sampleProfile ⟨"pw", ""⟩
      (SpawnOutcome.createFail "boom") (by decide)).2.2.2.2 (by decide)
      (by decide)⟩

/-- The inductive invariant of the fine-grained model: at quiescence a
`Failed` controller state implies an empty stored profile id, and an
in-flight state-change callback belongs to the committed state. -/
theorem fine_invariant :
    ∀ s : FineState, FineReachable s →
      (s.pending = Pending.idle → s.ctrl = ConnectionState.failed →
        s.profileID = "") ∧
      (∀ newState, s.pending = Pending.stateChangeCommitted newState →
        s.ctrl = newState) := by
  intro s h
  induction h with
  | init =>
    constructor
    · intro _ h2
      exact absurd h2 (by decide)
    · intro newState hp
      exact Pending.noConfusion hp
  | @step s1 s2 hr hstep ih =>
    cases hstep with
    | commitStateChange newState hidle hvalid =>
      constructor
      · intro hp
        exact absurd hp (by simp)
      · intro new hp
        cases hp
        rfl
    | finishStateChange newState hpend =>
      constructor
      · intro _ hfail
        have hctrl : s1.ctrl = newState := ih.2 newState hpend
        have hnf : newState = ConnectionState.failed := hctrl.symm.trans hfail
        show (if newState == ConnectionState.disconnected ||
            newState == ConnectionState.failed then "" else s1.profileID) = ""
        rw [hnf]
        simp
      · intro new hp
        exact absurd hp (by simp [finishStateChangeUpdate])
    | beginConnect fs params hidle hcert hkey hprof hcan =>
      constructor
      · intro hp
        exact absurd hp (by simp)
      · intro new hp
        exact absurd hp (by simp)
    | connectSucceeds pid hpend hvalid =>
      constructor
      · intro _ hfail
        simp at hfail
      · intro new hp
        exact absurd hp (by simp)
    | connectSpawnFails pid hpend hvalid =>
      constructor
      · intro hp
        exact absurd hp (by simp)
      · intro new hp
        exact absurd hp (by simp)
    | finishConnectFail pid hpend =>
      constructor
      · intro _ _
        rfl
      · intro new hp
        exact absurd hp (by simp)
    | disconnectReq reqId derr hidle =>
      constructor
      · intro _ hfail
        have hid : s1.profileID = "" := ih.1 hidle hfail
        show (handleDisconnect ⟨s1.ctrl, s1.profileID⟩ reqId
          derr).2.connectedProfileID = ""
        rw [hfail, hid]
        simp [handleDisconnect, CanDisconnect]
      · intro new hp
        exact absurd hp (by simp)
    | statusReq =>
      exact ih

/-- C9 counterexample.  The unqualified "any status response produced
while the state is `Failed` carries an empty connected_profile_id" is
false of the program: after a connect stores the profile id, the
controller can commit `Connecting → Failed` (controller.go:87-105), and a
concurrent `status` request served between that commit and the
`onStateChange` clear (manager.go:539-556) observes state `failed` with
the profile id still stored. -/
theorem status_can_observe_failed_with_stale_profile :
    FineReachable ⟨ConnectionState.failed,
      "123e4567-e89b-12d3-a456-426614174000",
      Pending.stateChangeCommitted ConnectionState.failed⟩ ∧
    (fineStatus ⟨ConnectionState.failed,
      "123e4567-e89b-12d3-a456-426614174000",
      Pending.stateChangeCommitted ConnectionState.failed⟩).state =
      "failed" ∧
    (fineStatus ⟨ConnectionState.failed,
      "123e4567-e89b-12d3-a456-426614174000",
      Pending.stateChangeCommitted ConnectionState.failed⟩).connectedProfileID
      ≠ "" := by
  refine ⟨?_, rfl, by decide⟩
  have h1 : FineReachable ⟨.disconnected, "", Pending.idle⟩ :=
    FineReachable.init
  have h2 : FineReachable ⟨.disconnected,
      "123e4567-e89b-12d3-a456-426614174000",
      Pending.connectRecorded "123e4567-e89b-12d3-a456-426614174000"⟩ :=
    FineReachable.step h1 (FineStep.beginConnect _ fsNotExist sampleParams
      rfl (by decide) (by decide) (by decide) (by decide))
  have h3 : FineReachable ⟨.connecting,
      "123e4567-e89b-12d3-a456-426614174000", Pending.idle⟩ :=
    FineReachable.step h2 (FineStep.connectSucceeds _
      "123e4567-e89b-12d3-a456-426614174000" rfl (by decide))
  exact FineReachable.step h3
    (FineStep.commitStateChange _ ConnectionState.failed rfl (by decide))

/-- C9 as amended.  Whenever the controller reports a state change whose
new state is `Disconnected` or `Failed`, the manager clears its stored
profile id by the time the `onStateChange` callback returns; consequently
a status response produced while the state is `Failed` and no state-change
callback or connect handler is in flight carries an empty
`connected_profile_id`. -/
theorem failed_state_profile_clear_amended :
    (∀ (s : FineState) (newState : ConnectionState),
      newState = ConnectionState.disconnected ∨
        newState = ConnectionState.failed →
      (finishStateChangeUpdate s newState).profileID = "") ∧
    (∀ s : FineState, FineReachable s → s.pending = Pending.idle →
      s.ctrl = ConnectionState.failed →
      (fineStatus s).connectedProfileID = "") := by
  constructor
  · intro s newState h
    unfold finishStateChangeUpdate
    rcases h with h | h <;> rw [h] <;> simp
  · intro s hr hidle hfail
    show s.profileID = ""
    exact (fine_invariant s hr).1 hidle hfail

/-- Witness for C9 (amended): completing the callback for a `Failed`
commit clears the id, and at a concrete reachable quiescent `Failed` state
the status payload carries an empty profile id. -/
theorem failed_state_profile_clear_amended_witness :
    (finishStateChangeUpdate ⟨ConnectionState.failed,
      "123e4567-e89b-12d3-a456-426614174000",
      Pending.stateChangeCommitted ConnectionState.failed⟩
      ConnectionState.failed).profileID = "" ∧
    (fineStatus ⟨ConnectionState.failed, "",
      Pending.idle⟩).connectedProfileID = "" := by
  constructor
  · exact failed_state_profile_clear_amended.1 _ ConnectionState.failed
      (Or.inr rfl)
  · have h1 : FineReachable ⟨.disconnected, "", Pending.idle⟩ :=
      FineReachable.init
    have h2 : FineReachable ⟨.connecting, "",
        Pending.stateChangeCommitted ConnectionState.connecting⟩ :=
      FineReachable.step h1
        (FineStep.commitStateChange _ ConnectionState.connecting rfl
          (by decide))
    have he1 : finishStateChangeUpdate ⟨.connecting, "",
        Pending.stateChangeCommitted ConnectionState.connecting⟩
        ConnectionState.connecting = ⟨.connecting, "", Pending.idle⟩ := by
      decide
    have h3 : FineReachable ⟨.connecting, "", Pending.idle⟩ :=
      he1 ▸ FineReachable.step h2
        (FineStep.finishStateChange _ ConnectionState.connecting rfl)
    have h4 : FineReachable ⟨.failed, "",
        Pending.stateChangeCommitted ConnectionState.failed⟩ :=
      FineReachable.step h3
        (FineStep.commitStateChange _ ConnectionState.failed rfl (by decide))
    have he2 : finishStateChangeUpdate ⟨.failed, "",
        Pending.stateChangeCommitted ConnectionState.failed⟩
        ConnectionState.failed = ⟨.failed, "", Pending.idle⟩ := by
      decide
    have h5 : FineReachable ⟨.failed, "", Pending.idle⟩ :=
      he2 ▸ FineReachable.step h4
        (FineStep.finishStateChange _ ConnectionState.failed rfl)
    exact failed_state_profile_clear_amended.2 _ h5 rfl rfl

/-- `validateTextInput` succeeds only for values within the byte limit and
without ASCII control characters. -/
theorem validateTextInput_ok (value fieldName : String) (maxLength : Nat)
    (h : validateTextInput value fieldName maxLength = Except.ok ()) :
    value.utf8ByteSize ≤ maxLength ∧ hasCtlChar value = false := by
  unfold validateTextInput at h
  split at h
  · exact Except.noConfusion h
  · split at h
    · exact Except.noConfusion h
    · next hlen hctl =>
      constructor
      · omega
      · exact Bool.eq_false_iff.mpr hctl

/-- `Validate` succeeds only when the name and description pass the text
checks, the host passes `validateHost`, the port is in 1..65535 and the
authentication method is one of the four declared ones. -/
theorem validate_ok_facts (p : Profile) (h : Validate p = Except.ok ()) :
    p.name.utf8ByteSize ≤ maxNameLength ∧ hasCtlChar p.name = false ∧
    (p.description = "" ∨
      (p.description.utf8ByteSize ≤ maxDescriptionLength ∧
       hasCtlChar p.description = false)) ∧
    validateHost p.host = Except.ok () ∧ 1 ≤ p.port ∧ p.port ≤ 65535 ∧
    (p.authMethod = authMethodPassword ∨ p.authMethod = authMethodOTP ∨
     p.authMethod = authMethodSAML ∨ p.authMethod = authMethodCertificate) := by
  unfold Validate at h
  split at h
  · exact Except.noConfusion h
  · split at h
    · exact Except.noConfusion h
    · split at h
      · exact Except.noConfusion h
      · split at h
        · exact Except.noConfusion h
        · next hname =>
          split at h
          · exact Except.noConfusion h
          · next hdesc =>
            split at h
            · exact Except.noConfusion h
            · split at h
              · exact Except.noConfusion h
              · next hhost =>
                split at h
                · exact Except.noConfusion h
                · next hport =>
                  have hfacts1 := validateTextInput_ok p.name "name"
                    maxNameLength hname
                  have hfacts2 : p.description = "" ∨
                      (p.description.utf8ByteSize ≤ maxDescriptionLength ∧
                       hasCtlChar p.description = false) := by
                    rcases hd : (p.description != "") with _ | _
                    · left
                      exact bne_eq_false_iff_eq.mp hd
                    · right
                      rw [hd] at hdesc
                      exact validateTextInput_ok p.description "description"
                        maxDescriptionLength hdesc
                  have hport2 : 1 ≤ p.port ∧ p.port ≤ 65535 := by
                    simp only [Bool.or_eq_true, decide_eq_true_eq, not_or]
                      at hport
                    omega
                  refine ⟨hfacts1.1, hfacts1.2, hfacts2, hhost, hport2.1,
                    hport2.2, ?_⟩
                  cases hauth : (p.authMethod == authMethodPassword ||
                      p.authMethod == authMethodOTP ||
                      p.authMethod == authMethodSAML) with
                  | true =>
                    simp only [Bool.or_eq_true, beq_iff_eq] at hauth
                    rcases hauth with ha | ha
                    · rcases ha with ha | ha
                      · exact Or.inl ha
                      · exact Or.inr (Or.inl ha)
                    · exact Or.inr (Or.inr (Or.inl ha))
                  | false =>
                    rw [hauth] at h
                    simp only [Bool.false_eq_true, if_false] at h
                    cases hcert : (p.authMethod == authMethodCertificate) with
                    | true =>
                      exact Or.inr (Or.inr (Or.inr (beq_iff_eq.mp hcert)))
                    | false =>
                      rw [hcert] at h
                      simp only [Bool.false_eq_true, if_false] at h
                      exact Except.noConfusion h

/-- C10.  `Validate` rejects every profile whose name exceeds 100 bytes,
whose non-empty description exceeds 500 bytes, or whose name or description
contains an ASCII control character (below 32, or 127); and these limits
hold in addition to the host, port and authentication-method checks, all of
which a successful validation guarantees. -/
theorem profile_text_limits :
    ∀ p : Profile,
      (maxNameLength < p.name.utf8ByteSize →
        exceptIsErr (Validate p) = true) ∧
      (p.description ≠ "" → maxDescriptionLength < p.description.utf8ByteSize →
        exceptIsErr (Validate p) = true) ∧
      (hasCtlChar p.name = true → exceptIsErr (Validate p) = true) ∧
      (hasCtlChar p.description = true → exceptIsErr (Validate p) = true) ∧
      (Validate p = Except.ok () →
        p.name.utf8ByteSize ≤ maxNameLength ∧ hasCtlChar p.name = false ∧
        (p.description = "" ∨
          (p.description.utf8ByteSize ≤ maxDescriptionLength ∧
           hasCtlChar p.description = false)) ∧
        validateHost p.host = Except.ok () ∧ 1 ≤ p.port ∧ p.port ≤ 65535 ∧
        (p.authMethod = authMethodPassword ∨ p.authMethod = authMethodOTP ∨
         p.authMethod = authMethodSAML ∨
         p.authMethod = authMethodCertificate)) := by
  intro p
  refine ⟨?_, ?_, ?_, ?_, validate_ok_facts p⟩
  · intro hlong
    cases hV : Validate p with
    | error e => rfl
    | ok u =>
      cases u
      exfalso
      have hf := validate_ok_facts p hV
      omega
  · intro hne hlong
    cases hV : Validate p with
    | error e => rfl
    | ok u =>
      cases u
      exfalso
      have hf := validate_ok_facts p hV
      rcases hf.2.2.1 with hd | hd
      · exact hne hd
      · omega
  · intro hctl
    cases hV : Validate p with
    | error e => rfl
    | ok u =>
      cases u
      exfalso
      have hf := validate_ok_facts p hV
      rw [hf.2.1] at hctl
      exact Bool.noConfusion hctl
  · intro hctl
    cases hV : Validate p with
    | error e => rfl
    | ok u =>
      cases u
      exfalso
      have hf := validate_ok_facts p hV
      rcases hf.2.2.1 with hd | hd
      · rw [hd] at hctl
        simp [hasCtlChar] at hctl
      · rw [hd.2] at hctl
        exact Bool.noConfusion hctl

/-- Witness for C10: a 101-byte name is rejected, and the fully valid
sample profile yields all the positive guarantees. -/
theorem profile_text_limits_witness :
    exceptIsErr (Validate longNameProfile) = true ∧
    (sampleProfile.name.utf8ByteSize ≤ maxNameLength ∧
     hasCtlChar sampleProfile.name = false ∧
     (sampleProfile.description = "" ∨
       (sampleProfile.description.utf8ByteSize ≤ maxDescriptionLength ∧
        hasCtlChar sampleProfile.description = false)) ∧
     validateHost sampleProfile.host = Except.ok () ∧
     1 ≤ sampleProfile.port ∧ sampleProfile.port ≤ 65535 ∧
     (sampleProfile.authMethod = authMethodPassword ∨
      sampleProfile.authMethod = authMethodOTP ∨
      sampleProfile.authMethod = authMethodSAML ∨
      sampleProfile.authMethod = authMethodCertificate)) :=
  ⟨(profile_text_limits longNameProfile).1 (by decide),
   (profile_text_limits sampleProfile).2.2.2.2 (by decide)⟩

/-- C5.  `ParseLine` implements the §4.1 table: blank or whitespace-only
lines yield no event; otherwise the eight patterns are tried in the table's
fixed order (Authenticate-URL, tunnel-up, tunnel-down, Got-addresses with
the first bracketed group, `ERROR:` with the trimmed message,
Connecting-to-gateway, case-insensitive OTP prompt, case-insensitive
password prompt) with the first match determining the event; a line
matching none of them yields no event. -/
theorem parse_line_matches_spec_table :
    ∀ l : List Char,
      ((goTrimSpace l).isEmpty = true → ParseLine l = none) ∧
      Option.map eventAbs (ParseLine l) = specParseLine l ∧
      (noPatternMatches l = true → ParseLine l = none) := by
  intro l
  refine ⟨?_, ?_, ?_⟩
  · intro h
    simp [ParseLine, h]
  · by_cases hb : (goTrimSpace l).isEmpty = true
    · simp [ParseLine, specParseLine, hb]
    · have hb2 : (goTrimSpace l).isEmpty = false := by
        cases hx : (goTrimSpace l).isEmpty
        · rfl
        · exact absurd hx hb
      cases h1 : findCapture authLit quoteChar l with
      | some url =>
        simp [ParseLine, specParseLine, specRules, firstSome, specRule1,
          hb2, h1, eventAbs, GetData]
      | none =>
        cases h2 : containsSub tunnelUpLit l with
        | true =>
          simp [ParseLine, specParseLine, specRules, firstSome, specRule1,
            specRule2, hb2, h1, h2, eventAbs]
        | false =>
          cases h3 : containsSub tunnelDownLit l with
          | true =>
            simp [ParseLine, specParseLine, specRules, firstSome, specRule1,
              specRule2, specRule3, hb2, h1, h2, h3, eventAbs]
          | false =>
            cases h4 : findCapture gotAddrLit rbracketChar l with
            | some ip =>
              simp [ParseLine, specParseLine, specRules, firstSome, specRule1,
                specRule2, specRule3, specRule4, hb2, h1, h2, h3, h4,
                eventAbs, GetData]
            | none =>
              cases h5 : findErrorCapture l with
              | some msg =>
                simp [ParseLine, specParseLine, specRules, firstSome,
                  specRule1, specRule2, specRule3, specRule4, specRule5,
                  hb2, h1, h2, h3, h4, h5, eventAbs]
              | none =>
                cases h6 : containsSub connectingLit l with
                | true =>
                  simp [ParseLine, specParseLine, specRules, firstSome,
                    specRule1, specRule2, specRule3, specRule4, specRule5,
                    specRule6, hb2, h1, h2, h3, h4, h5, h6, eventAbs]
                | false =>
                  cases h7 : otpLits.any
                      (fun pat => containsSub pat (l.map asciiLower)) with
                  | true =>
                    simp [ParseLine, specParseLine, specRules, firstSome,
                      specRule1, specRule2, specRule3, specRule4, specRule5,
                      specRule6, specRule7, hb2, h1, h2, h3, h4, h5, h6, h7,
                      eventAbs]
                  | false =>
                    cases h8 : containsSub passwordLit (l.map asciiLower) with
                    | true =>
                      simp [ParseLine, specParseLine, specRules, firstSome,
                        specRule1, specRule2, specRule3, specRule4, specRule5,
                        specRule6, specRule7, specRule8, hb2, h1, h2, h3, h4,
                        h5, h6, h7, h8, eventAbs]
                    | false =>
                      simp [ParseLine, specParseLine, specRules, firstSome,
                        specRule1, specRule2, specRule3, specRule4, specRule5,
                        specRule6, specRule7, specRule8, hb2, h1, h2, h3, h4,
                        h5, h6, h7, h8]
  · intro h
    simp only [noPatternMatches, Bool.and_eq_true, Bool.not_eq_true',
      Option.isNone_iff_eq_none] at h
    obtain ⟨⟨⟨⟨⟨⟨⟨ha, hu⟩, hd⟩, hg⟩, he⟩, hc⟩, ho⟩, hp⟩ := h
    simp [ParseLine, ha, hu, hd, hg, he, hc, ho, hp]

/-- Witness for C5: a whitespace-only line and an unmatched line both yield
no event, and the code agrees with the table on a tunnel-up line. -/
theorem parse_line_matches_spec_table_witness :
    ParseLine "   ".data = none ∧
    ParseLine "Some random log message".data = none ∧
    Option.map eventAbs (ParseLine "Tunnel is up and running.".data) =
      specParseLine "Tunnel is up and running.".data :=
  ⟨(parse_line_matches_spec_table "   ".data).1 (by decide),
   (parse_line_matches_spec_table "Some random log message".data).2.2
     (by decide),
   (parse_line_matches_spec_table "Tunnel is up and running.".data).2.1⟩

end OfvGui
